import Mathlib

/-!
Verification development for the langchain-ContextarticleWriting agent graph.

The definitions below are a shallow embedding of the Python sources:
  * src/langchain_components/agent_graph.py  (call_model, should_continue,
    after_tool_call, the compiled workflow loop),
  * src/langchain_components/tools.py        (finish, save_article),
  * src/api/routers/writing.py               (create_article result extraction,
    translate_existing_article, images_existing_article),
  * src/plugins/translation.py               (translate_text),
  * src/plugins/image_generation.py          (generate_image).

External effects (the LLM call, tool network calls, the filesystem) are
passed in as explicit oracles, so every definition is executable.  The
langgraph runtime pieces the sources rely on (StateGraph driving, ToolNode
dispatch, the recursion limit of astream) are embedded from the documented
behaviour of that library, since the repository delegates to them directly.
The AgentState record lives in a repository file that is not part of the
provided sources; it is modelled from the spec as the append-only message
sequence (see AgentState below).
-/

/-- Splitting worker over character lists: at each position either the
separator is a prefix (cut there and continue after it) or one character is
consumed; the fuel argument is a structural recursion bound always chosen
large enough to never run out. -/
def pySplitAux (sep : List Char) : Nat → List Char → List Char → List (List Char)
  | 0, s, acc => [acc.reverse ++ s]
  | Nat.succ fuel, s, acc =>
    match s with
    | [] => [acc.reverse]
    | c :: rest =>
      if sep.isPrefixOf (c :: rest) then
        acc.reverse :: pySplitAux sep fuel (List.drop sep.length (c :: rest)) []
      else
        pySplitAux sep fuel rest (c :: acc)

/-- Embedding of the Python str.split method with a non empty separator:
split on non overlapping occurrences from the left. -/
def pySplit (s sep : String) : List String :=
  (pySplitAux sep.toList (s.toList.length + 1) s.toList []).map (fun l => String.mk l)

/-- Embedding of the Python str.strip method with no argument: drop
whitespace from both ends. -/
def pyStrip (s : String) : String :=
  String.mk (((s.toList.dropWhile Char.isWhitespace).reverse.dropWhile Char.isWhitespace).reverse)

/-- Joining a list of strings with a separator, the embedding of the Python
str.join method. -/
def joinWith (sep : String) : List String → String
  | [] => ""
  | [x] => x
  | x :: y :: xs => x ++ sep ++ joinWith sep (y :: xs)

/-- Message role, mirroring langchain message classes: HumanMessage,
AIMessage and ToolMessage. -/
inductive Role
  | human
  | ai
  | tool
deriving DecidableEq, Repr

/-- One requested tool call, as produced by the model: a tool name, a
structured argument object (embedded as a string-keyed association list)
and an opaque call id. -/
structure ToolCall where
  name : String
  args : List (String × String)
  id : String
deriving DecidableEq, Repr

/-- One conversation message.  In langchain only AIMessage carries the
attribute tool_calls and only ToolMessage carries tool_call_id; the role
field records which class the message is. -/
structure Msg where
  role : Role
  content : String
  tool_calls : List ToolCall
  tool_call_id : String
deriving DecidableEq, Repr

/-- Modelled from the spec: AgentState (file src/langchain_components/agent_state.py
is absent from the provided sources).  The spec describes the Conversation
State as an ordered, append-only sequence of messages threaded through every
transition, so the graph state is the message list itself. -/
def AgentState : Type := List Msg

/-- Constructor for a HumanMessage. -/
def mkHuman (content : String) : Msg := ⟨Role.human, content, [], ""⟩

/-- Constructor for an AIMessage with requested tool calls. -/
def mkAI (content : String) (tcs : List ToolCall) : Msg := ⟨Role.ai, content, tcs, ""⟩

/-- Constructor for a ToolMessage answering a given call id. -/
def mkTool (content : String) (callId : String) : Msg := ⟨Role.tool, content, [], callId⟩

/-- Error string for a Python attribute lookup of tool_calls on a message
class that does not define it (HumanMessage, ToolMessage). -/
def toolCallsAttrError : String :=
  "AttributeError: message object has no attribute tool_calls"

/-- Python attribute access m.tool_calls: succeeds on AIMessage, raises
AttributeError on the other message classes. -/
def Msg.toolCallsAttr (m : Msg) : Except String (List ToolCall) :=
  if m.role = Role.ai then Except.ok m.tool_calls else Except.error toolCallsAttrError

/-- Python getattr(m, tool_calls, None) as used in the result extraction of
writing.py line 64: a missing attribute yields None, and None and the empty
list are both falsy there, so None is embedded as the empty list. -/
def Msg.toolCallsOrNone (m : Msg) : List ToolCall :=
  if m.role = Role.ai then m.tool_calls else []

/-- The model response as returned by a successful model.invoke: langchain
always returns an AIMessage, carrying content and tool_calls. -/
structure AIResponse where
  content : String
  tool_calls : List ToolCall
deriving DecidableEq, Repr

/-- Names bound at module level in agent_graph.py: its import list
(lines 1 to 14) and its top level definitions.  The except branch of
call_model resolves the name HumanMessage against exactly these. -/
def agentGraphGlobals : List String :=
  ["Sequence", "operator", "BaseMessage", "ChatOpenAI", "StateGraph", "END",
   "ToolNode", "get_settings", "search_and_summarize", "save_article",
   "read_article", "save_image_with_compression", "finish", "generate_image",
   "translate_text", "get_logger", "AgentState", "logger", "tools",
   "tool_node", "settings", "model", "should_continue", "call_model",
   "call_tool_with_logging", "workflow", "after_tool_call", "agent_graph"]

/-- Error raised when the except branch of call_model evaluates the
unresolvable name HumanMessage. -/
def nameErrorHumanMessage : String := "NameError: name HumanMessage is not defined"

/-- Embedding of call_model (agent_graph.py lines 39 to 57).  The model
invocation is an oracle returning either an AIResponse or a raised
exception.  On success the response is appended.  On failure the except
branch constructs HumanMessage(content=...), which first resolves the name
HumanMessage in the module globals; agent_graph.py imports only BaseMessage
from langchain_core.messages, so the lookup raises NameError. -/
def call_model (modelInvoke : List Msg → Except String AIResponse) (msgs : List Msg) :
    Except String (List Msg) :=
  match modelInvoke msgs with
  | Except.ok resp => Except.ok (msgs ++ [mkAI resp.content resp.tool_calls])
  | Except.error e =>
      if agentGraphGlobals.contains "HumanMessage" then
        Except.ok (msgs ++ [mkHuman ("An error occurred while calling the model: " ++ e)])
      else
        Except.error nameErrorHumanMessage

/-- Embedding of should_continue (agent_graph.py lines 30 to 37): read the
last message, inspect its tool_calls attribute, return the edge label. -/
def should_continue (msgs : List Msg) : Except String String :=
  match msgs.reverse with
  | [] => Except.error "IndexError: list index out of range"
  | last :: _ =>
    match last.toolCallsAttr with
    | Except.error e => Except.error e
    | Except.ok tcs => if tcs.isEmpty then Except.ok "end" else Except.ok "call_tool"

/-- Embedding of after_tool_call (agent_graph.py lines 87 to 101): read the
second to last message of the history, take the first entry of its
tool_calls, and end the run exactly when that entry names finish. -/
def after_tool_call (msgs : List Msg) : Except String String :=
  match msgs.reverse with
  | _last :: secondToLast :: _ =>
    match secondToLast.toolCallsAttr with
    | Except.error e => Except.error e
    | Except.ok tcs =>
      match tcs with
      | [] => Except.error "IndexError: list index out of range"
      | tc :: _ => if tc.name = "finish" then Except.ok "end" else Except.ok "continue"
  | _ => Except.error "IndexError: list index out of range"

/-- The tool names registered with the ToolNode (agent_graph.py line 18). -/
def registeredToolNames : List String :=
  ["generate_image", "translate_text", "search_and_summarize", "save_article",
   "read_article", "save_image_with_compression", "finish"]

/-- Failure message produced by the langgraph ToolNode when a requested tool
name is not registered: the invalid tool name error template instantiated
with the registered names. -/
def invalidToolMsg (name : String) : String :=
  "Error: " ++ name ++ " is not a valid tool, try one of [" ++
    joinWith ", " registeredToolNames ++ "]."

/-- Embedding of the finish tool (tools.py lines 152 to 157): it returns its
final_summary argument verbatim; a call without that argument fails the
schema validation langchain performs before the tool body runs. -/
def finishTool (args : List (String × String)) : Except String String :=
  match args.lookup "final_summary" with
  | some s => Except.ok s
  | none => Except.error "ValidationError: final_summary field required"

/-- Oracle giving the behaviour of the registered tools whose effects are
external (network, filesystem): tool name and arguments to either an output
string or a raised exception. -/
structure ToolEnv where
  impl : String → List (String × String) → Except String String

/-- Dispatch of one registered tool: finish is implemented in tools.py and
embedded directly; every other registered tool runs through the oracle. -/
def runRegisteredTool (env : ToolEnv) (name : String) (args : List (String × String)) :
    Except String String :=
  if name = "finish" then finishTool args else env.impl name args

/-- Processing of a single requested call by the langgraph ToolNode: an
unregistered name yields the invalid tool message (no tool runs, so no
on_tool_end event); a registered tool that raises yields the error template
message (again no on_tool_end event); a successful run yields a ToolMessage
with the output and one on_tool_end event (name, output). -/
def toolNodeRunOne (env : ToolEnv) (tc : ToolCall) : Msg × List (String × String) :=
  if registeredToolNames.contains tc.name then
    match runRegisteredTool env tc.name tc.args with
    | Except.ok out => (mkTool out tc.id, [(tc.name, out)])
    | Except.error e => (mkTool ("Error: " ++ e ++ "\n Please fix your mistakes.") tc.id, [])
  else
    (mkTool (invalidToolMsg tc.name) tc.id, [])

/-- Embedding of call_tool_with_logging (agent_graph.py lines 59 to 69),
which delegates to ToolNode.invoke: take the tool_calls of the last
message (an AIMessage whenever this node is reached), answer each call in
request order, and append the resulting ToolMessages.  The second component
collects the on_tool_end events consumed by the caller. -/
def tool_node_invoke (env : ToolEnv) (msgs : List Msg) :
    Except String (List Msg × List (String × String)) :=
  match msgs.reverse with
  | [] => Except.error "ValueError: No message found in input"
  | last :: _ =>
    if last.role = Role.ai then
      let results := last.tool_calls.map (toolNodeRunOne env)
      Except.ok (msgs ++ results.map Prod.fst, (results.map Prod.snd).flatten)
    else
      Except.error "ValueError: Last message is not an AIMessage"

/-- Configuration of one run: the model oracle and the tool oracle. -/
structure RunCfg where
  modelInvoke : List Msg → Except String AIResponse
  toolEnv : ToolEnv

/-- Outcome of driving the compiled workflow: the run reaches END with a
final state, or an exception surfaces from the stream, or the langgraph
recursion limit aborts the run.  Each constructor carries the on_tool_end
events the consumer in writing.py has already collected. -/
inductive RunResult
  | ended (msgs : List Msg) (touts : List (String × String))
  | raised (e : String) (touts : List (String × String))
  | recursionLimit (msgs : List Msg) (touts : List (String × String))
deriving DecidableEq, Repr

/-- Embedding of the compiled workflow (agent_graph.py lines 71 to 112):
entry point agent (call_model), conditional edge should_continue to action
or END, node action (the ToolNode), conditional edge after_tool_call back
to agent or to END.  The fuel argument embeds the langgraph recursion
limit: when it runs out the stream raises GraphRecursionError. -/
def runLoop (cfg : RunCfg) : Nat → List Msg → List (String × String) → RunResult
  | 0, msgs, touts => RunResult.recursionLimit msgs touts
  | Nat.succ n, msgs, touts =>
    match call_model cfg.modelInvoke msgs with
    | Except.error e => RunResult.raised e touts
    | Except.ok msgs1 =>
      match should_continue msgs1 with
      | Except.error e => RunResult.raised e touts
      | Except.ok d =>
        if d = "end" then RunResult.ended msgs1 touts
        else
          match tool_node_invoke cfg.toolEnv msgs1 with
          | Except.error e => RunResult.raised e touts
          | Except.ok (msgs2, newOuts) =>
            let touts2 := touts ++ newOuts
            match after_tool_call msgs2 with
            | Except.error e => RunResult.raised e touts2
            | Except.ok d2 =>
              if d2 = "end" then RunResult.ended msgs2 touts2
              else runLoop cfg n msgs2 touts2

/-- Outputs collected for one tool name, in event order: the embedding of
tool_outputs[name] built by setdefault and append in writing.py. -/
def outputsOf (touts : List (String × String)) (name : String) : List String :=
  (touts.filter (fun p => p.fst = name)).map Prod.snd

/-- Python substring containment (the in operator) for a non empty needle. -/
def pyContains (s sub : String) : Bool := (pySplit s sub).length ≥ 2

/-- The literal marker phrase the result extraction searches for. -/
def savedMarker : String := "successfully saved to"

/-- Embedding of pathlib Path(p).name: the last non empty slash separated
segment of the path string. -/
def pathName (p : String) : String :=
  ((pySplit p "/").filter (fun seg => seg ≠ "")).getLastD ""

/-- Python dict assignment d[k] = v on an insertion ordered dictionary
embedded as an association list. -/
def dictInsert (d : List (String × String)) (k v : String) : List (String × String) :=
  if d.any (fun p => p.fst = k) then d.map (fun p => if p.fst = k then (k, v) else p)
  else d ++ [(k, v)]

/-- Embedding of output.split(marker)[1].strip() from writing.py line 74:
the segment of the output between the first and second occurrence of the
marker (everything after the marker when it occurs once), trimmed.  Only
evaluated under the containment guard, which ensures index 1 exists. -/
def extractPathOf (output : String) : String :=
  pyStrip ((pySplit output savedMarker).getD 1 "")

/-- One pass of the artifact collection loop body (writing.py lines 72 to 75)
over the outputs of one tool name. -/
def addPathsFrom (outs : List String) (d : List (String × String)) : List (String × String) :=
  outs.foldl (fun acc out =>
    if pyContains out savedMarker then
      let p := extractPathOf out
      dictInsert acc (pathName p) p
    else acc) d

/-- Embedding of the artifact path collection of create_article (writing.py
lines 69 to 75): iterate over save_article outputs then over
save_image_with_compression outputs. -/
def extractFilePaths (touts : List (String × String)) : List (String × String) :=
  addPathsFrom (outputsOf touts "save_image_with_compression")
    (addPathsFrom (outputsOf touts "save_article") [])

/-- Embedding of the final summary computation of create_article
(writing.py lines 58 to 65): prefer the first finish output; otherwise use
the content of the last message of the final state when it is non empty and
the message has no (falsy) tool_calls; otherwise the summary stays empty. -/
def computeFinalSummary (finalState : Option (List Msg)) (touts : List (String × String)) :
    String :=
  match (outputsOf touts "finish").head? with
  | some s => s
  | none =>
    match finalState with
    | some msgs =>
      match msgs.reverse with
      | [] => ""
      | last :: _ =>
        if last.content ≠ "" ∧ last.toolCallsOrNone.isEmpty then last.content else ""
    | none => ""

/-- Message of the AgentExecutionError raised when the stream produced
neither a final state nor a finish output (writing.py line 56). -/
def agentNoStateError : String :=
  "Agent execution did not produce a valid final state and did not call finish."

/-- Message of the AgentExecutionError raised when no final summary could be
determined (writing.py line 68). -/
def noSummaryError : String := "Could not determine final summary from agent output."

/-- The data carried by a raised AgentExecutionError
(infrastructure/exceptions.py): the message plus the details dictionary,
which at the raise site of writing.py line 68 holds the final state and the
collected tool outputs. -/
structure AgentExecutionErrorData where
  message : String
  detailsFinalState : Option (List Msg)
  detailsToolOutputs : List (String × String)
deriving DecidableEq, Repr

/-- Embedding of the body of the try block of create_article after the
stream was consumed (writing.py lines 55 to 75): either the summary and the
artifact map, or the raised AgentExecutionError. -/
def buildResponseCore (finalState : Option (List Msg)) (touts : List (String × String)) :
    Except AgentExecutionErrorData (String × List (String × String)) :=
  if finalState.isNone ∧ (outputsOf touts "finish").isEmpty then
    Except.error ⟨agentNoStateError, none, []⟩
  else
    let s := computeFinalSummary finalState touts
    if s = "" then Except.error ⟨noSummaryError, finalState, touts⟩
    else Except.ok (s, extractFilePaths touts)

/-- The WriteResponse fields the claims are about: status, content (the
final summary, absent on failure), error text (str of the caught
exception), and the artifact path map. -/
structure WriteResult where
  status : String
  content : Option String
  error : Option String
  file_paths : List (String × String)
deriving DecidableEq, Repr

/-- Conversion of the extraction outcome into the returned WriteResponse
(writing.py lines 77 to 86): the except branch turns any raised exception
into a normal response with status failed and error text str(e), which for
an AgentExecutionError is its message. -/
def buildResponse (finalState : Option (List Msg)) (touts : List (String × String)) :
    WriteResult :=
  match buildResponseCore finalState touts with
  | Except.ok (s, fps) => ⟨"completed", some s, none, fps⟩
  | Except.error err => ⟨"failed", none, some err.message, []⟩

/-- Error text of the GraphRecursionError langgraph raises when the
recursion limit is reached before the graph hits END. -/
def graphRecursionError : String :=
  "GraphRecursionError: Recursion limit reached without hitting a stop condition"

/-- Embedding of the create_article endpoint body after the prompt was
built (writing.py lines 45 to 86): consume the event stream, then extract;
any exception raised while streaming is caught by the same except branch
and becomes a failed response with error text str(e). -/
def create_article_run (cfg : RunCfg) (fuel : Nat) (seedPrompt : String) : WriteResult :=
  match runLoop cfg fuel [mkHuman seedPrompt] [] with
  | RunResult.ended msgs touts => buildResponse (some msgs) touts
  | RunResult.raised e _ => ⟨"failed", none, some e, []⟩
  | RunResult.recursionLimit _ _ => ⟨"failed", none, some graphRecursionError, []⟩

/-- Embedding of translate_text (plugins/translation.py lines 10 to 29):
the LLM call is an oracle; a successful response is trimmed, a raised
exception is caught inside the tool and converted to an error string, so
the tool itself never raises. -/
def translate_text (llm : Except String String) : String :=
  match llm with
  | Except.ok content => pyStrip content
  | Except.error e => "Error during translation: " ++ e

/-- Embedding of save_article (tools.py lines 76 to 84): the filesystem
effect is an oracle; on success the tool reports the marker sentence with
the composed path, on failure it reports the caught exception. -/
def save_article (fs : Except String Unit) (filename : String) (_content : String)
    (outputDir : String) : String :=
  match fs with
  | Except.ok _ => "Article successfully saved to " ++ outputDir ++ "/" ++ filename ++ ".md"
  | Except.error e => "Error saving article: " ++ e

/-- Embedding of the fan out body of translate_existing_article
(writing.py lines 103 to 111): gather one translation per target language
(per language LLM oracle), save each result (per language filesystem
oracle), and collect the artifact map from the save outputs.  Note that the
saved content is the translate_text output, which is an error string when
the branch failed. -/
def translate_endpoint_paths (stem : String) (langs : List String)
    (llms : String → Except String String) (fs : String → Except String Unit) :
    List (String × String) :=
  (langs.map (fun lang =>
      save_article (fs lang) (stem ++ "_" ++ lang) (translate_text (llms lang))
        "output/trans_exist")).foldl
    (fun acc saveResult =>
      if pyContains saveResult savedMarker then
        let p := extractPathOf saveResult
        dictInsert acc (pathName p) p
      else acc) []

/-- The dictionary shapes generate_image returns: a success dictionary with
a file_path key, an error dictionary, or anything else. -/
inductive ImgResult
  | filePath (p : String)
  | errorResult (e : String) (details : String)
  | other
deriving DecidableEq, Repr

/-- Whether an ImgResult is the success dictionary. -/
def ImgResult.isFilePath : ImgResult → Bool
  | ImgResult.filePath _ => true
  | _ => false

/-- Outcome of the raw Gemini draw call (plugins/image_generation.py,
GeminiImageGenerator.draw): base64 payload extracted, or an error
dictionary; the method catches its own exceptions, so it never raises. -/
inductive DrawResult
  | base64Data (data : String)
  | drawError (e : String) (details : String)
deriving DecidableEq, Repr

/-- Embedding of generate_image (plugins/image_generation.py lines 89 to
164) at branch level: prompt enhancement LLM oracle, draw oracle, base64
decode oracle and the saved file path.  Every branch, including the outer
exception handler, returns a dictionary: the tool never raises. -/
def generate_image (llm : Except String String) (draw : DrawResult)
    (decodeOk : Bool) (savedPath : String) : ImgResult :=
  match llm with
  | Except.error e => ImgResult.errorResult "An error occurred during image generation" e
  | Except.ok content =>
    let imagePrompt := pyStrip content
    if imagePrompt = "" then
      ImgResult.errorResult "LLM failed to generate a valid image prompt."
        ("Received: " ++ imagePrompt)
    else
      match draw with
      | DrawResult.drawError e d => ImgResult.errorResult e d
      | DrawResult.base64Data data =>
        if data = "" then ImgResult.errorResult "No image data found in API response" ""
        else if decodeOk then ImgResult.filePath savedPath
        else ImgResult.errorResult "Failed to decode Base64 string" ""

/-- Body of the collection loop of images_existing_article (writing.py
lines 139 to 147): a result with a file_path key enters the artifact map,
an error result is logged and skipped, anything else is logged as
unexpected and skipped. -/
def imgStep (acc : List (String × String)) : ImgResult → List (String × String)
  | ImgResult.filePath p => dictInsert acc (pathName p) p
  | _ => acc

/-- Embedding of the collection loop of images_existing_article
(writing.py lines 138 to 147) over the gathered per branch results. -/
def images_collect (results : List ImgResult) : List (String × String) :=
  results.foldl imgStep []

/-- Run configuration in which the model always requests one
search_and_summarize call and every external tool returns a fixed summary
string: the scenario of a model that never calls finish and never stops
requesting tools. -/
def cfgAlwaysTool : RunCfg where
  modelInvoke := fun _ => Except.ok ⟨"", [⟨"search_and_summarize", [], "call_1"⟩]⟩
  toolEnv := ⟨fun _ _ => Except.ok "summary text"⟩

/-- Run configuration in which the first model response requests a batch of
two tool calls: search_and_summarize followed by finish with final_summary
X. -/
def cfgFinishInBatch : RunCfg where
  modelInvoke := fun _ =>
    Except.ok ⟨"", [⟨"search_and_summarize", [], "call_1"⟩,
                    ⟨"finish", [("final_summary", "X")], "call_2"⟩]⟩
  toolEnv := ⟨fun _ _ => Except.ok "summary text"⟩

/-- Run configuration in which the model answers immediately with a plain
message and an empty tool call list. -/
def cfgPlainAnswer : RunCfg where
  modelInvoke := fun _ => Except.ok ⟨"Final summary.", []⟩
  toolEnv := ⟨fun _ _ => Except.ok "unused"⟩

/-- Run configuration in which the first model response requests a single
finish call carrying the summary Done. -/
def cfgFinishOnly : RunCfg where
  modelInvoke := fun _ => Except.ok ⟨"", [⟨"finish", [("final_summary", "Done")], "call_1"⟩]⟩
  toolEnv := ⟨fun _ _ => Except.ok "unused"⟩

/-- Conversation state after a Tool Step that answered a batch of two
calls, the second of which is finish: seed, model message requesting
search_and_summarize and finish, then the two tool result messages. -/
def c2State : List Msg :=
  [mkHuman "seed",
   mkAI "" [⟨"search_and_summarize", [], "c1"⟩, ⟨"finish", [("final_summary", "X")], "c2"⟩],
   mkTool "summary text" "c1", mkTool "X" "c2"]

/-- A save tool output in which the marker phrase occurs twice. -/
def c5DoubleMarkerOutput : String :=
  "Article successfully saved to a successfully saved to b"

/-- Follows the spec words (spec section 3, Tool Output): the remainder of
the string after the marker phrase, stated for comparison with the
extraction the source performs via split. -/
def specRemainderAfterMarker (s : String) : String :=
  joinWith savedMarker ((pySplit s savedMarker).drop 1)

/-- Per language LLM oracle that fails on every branch. -/
def c9FailLlm : String → Except String String := fun _ => Except.error "boom"

/-- Per language filesystem oracle that succeeds on every branch. -/
def c9OkFs : String → Except String Unit := fun _ => Except.ok ()

/-- Tool oracle whose registered external tools all answer with out. -/
def c8Env : ToolEnv := ⟨fun _ _ => Except.ok "out"⟩

/-! Helper lemmas shared by the claim theorems. -/

lemma reverse_snoc2 (l : List Msg) (a b : Msg) :
    (l ++ [a, b]).reverse = b :: a :: l.reverse := by
  simp

lemma should_continue_append (msgs : List Msg) (c : String) (tcs : List ToolCall) :
    should_continue (msgs ++ [mkAI c tcs]) =
      Except.ok (if tcs.isEmpty then "end" else "call_tool") := by
  unfold should_continue
  simp [mkAI, Msg.toolCallsAttr, apply_ite]

lemma tool_node_invoke_append (env : ToolEnv) (msgs : List Msg) (c : String)
    (tcs : List ToolCall) :
    tool_node_invoke env (msgs ++ [mkAI c tcs]) =
      Except.ok (msgs ++ [mkAI c tcs] ++ (tcs.map (toolNodeRunOne env)).map Prod.fst,
                 ((tcs.map (toolNodeRunOne env)).map Prod.snd).flatten) := by
  unfold tool_node_invoke
  simp [mkAI]

lemma after_tool_call_eq (msgs : List Msg) (ai tm : Msg) (hrole : ai.role = Role.ai) :
    after_tool_call (msgs ++ [ai, tm]) =
      match ai.tool_calls with
      | [] => Except.error "IndexError: list index out of range"
      | tc :: _ => if tc.name = "finish" then Except.ok "end" else Except.ok "continue" := by
  unfold after_tool_call
  rw [reverse_snoc2]
  simp [Msg.toolCallsAttr, hrole]

lemma after_tool_call_tool_penultimate (msgs : List Msg) (tpen tlast : Msg)
    (h : tpen.role = Role.tool) :
    after_tool_call (msgs ++ [tpen, tlast]) = Except.error toolCallsAttrError := by
  unfold after_tool_call
  rw [reverse_snoc2]
  simp [Msg.toolCallsAttr, h]

lemma runLoop_succ_single_call (cfg : RunCfg) (n : Nat) (msgs : List Msg)
    (touts : List (String × String)) (c : String) (tc : ToolCall) (out : String)
    (hmodel : cfg.modelInvoke msgs = Except.ok ⟨c, [tc]⟩)
    (hreg : registeredToolNames.contains tc.name = true)
    (hrun : runRegisteredTool cfg.toolEnv tc.name tc.args = Except.ok out) :
    runLoop cfg (n+1) msgs touts =
      if tc.name = "finish" then
        RunResult.ended (msgs ++ [mkAI c [tc], mkTool out tc.id]) (touts ++ [(tc.name, out)])
      else
        runLoop cfg n (msgs ++ [mkAI c [tc], mkTool out tc.id]) (touts ++ [(tc.name, out)]) := by
  have h1 : call_model cfg.modelInvoke msgs = Except.ok (msgs ++ [mkAI c [tc]]) := by
    unfold call_model
    rw [hmodel]
  have h2 : should_continue (msgs ++ [mkAI c [tc]]) = Except.ok "call_tool" := by
    rw [should_continue_append]
    rfl
  have hmem : tc.name ∈ registeredToolNames := by simpa using hreg
  have h3 : tool_node_invoke cfg.toolEnv (msgs ++ [mkAI c [tc]]) =
      Except.ok (msgs ++ [mkAI c [tc], mkTool out tc.id], [(tc.name, out)]) := by
    rw [tool_node_invoke_append]
    simp [toolNodeRunOne, hmem, hrun]
  have h4 : after_tool_call (msgs ++ [mkAI c [tc], mkTool out tc.id]) =
      if tc.name = "finish" then Except.ok "end" else Except.ok "continue" := by
    rw [after_tool_call_eq msgs (mkAI c [tc]) (mkTool out tc.id) rfl]
    rfl
  by_cases hname : tc.name = "finish"
  · simp [runLoop, h1, h2, h3, h4, hname]
  · simp [runLoop, h1, h2, h3, h4, hname]

lemma outputsOf_append (t1 t2 : List (String × String)) (name : String) :
    outputsOf (t1 ++ t2) name = outputsOf t1 name ++ outputsOf t2 name := by
  simp [outputsOf, List.filter_append]

lemma cfgAlwaysTool_never_ends (n : Nat) : ∀ msgs touts,
    ∃ m t, runLoop cfgAlwaysTool n msgs touts = RunResult.recursionLimit m t := by
  induction n with
  | zero => exact fun msgs touts => ⟨msgs, touts, rfl⟩
  | succ k ih =>
    intro msgs touts
    rw [runLoop_succ_single_call cfgAlwaysTool k msgs touts ""
      ⟨"search_and_summarize", [], "call_1"⟩ "summary text" rfl (by decide) rfl]
    simp only [if_neg (by decide : ¬ ("search_and_summarize" : String) = "finish")]
    exact ih _ _

lemma images_foldl_filter (results : List ImgResult) : ∀ acc,
    results.foldl imgStep acc = (results.filter ImgResult.isFilePath).foldl imgStep acc := by
  induction results with
  | nil => intro acc; rfl
  | cons r rest ih =>
    intro acc
    cases r with
    | filePath p => simp [List.foldl, List.filter, ImgResult.isFilePath, ih]
    | errorResult e d => simpa [List.foldl, List.filter, ImgResult.isFilePath, imgStep] using ih acc
    | other => simpa [List.foldl, List.filter, ImgResult.isFilePath, imgStep] using ih acc

/-! Claim theorems. -/

/-- Claim C1: the claim says a model invocation failure inside the Model Step is
contained, appending one synthetic message with role model, empty
tool_calls and the error text.  The code instead raises: its except branch
evaluates HumanMessage, a name agent_graph.py never imports, so the model
call failure escapes call_model as a NameError, and the whole run surfaces
as a failed response carrying that NameError rather than terminating
cleanly through the transition policy. -/
theorem C1_model_failure_escapes (msgs : List Msg) (e : String) (fuel : Nat)
    (p : String) (env : ToolEnv) :
    call_model (fun _ => Except.error e) msgs = Except.error nameErrorHumanMessage ∧
    create_article_run ⟨fun _ => Except.error e, env⟩ (fuel + 1) p =
      ⟨"failed", none, some nameErrorHumanMessage, []⟩ := by
  have h1 : call_model (fun _ => Except.error e) msgs = Except.error nameErrorHumanMessage := by
    unfold call_model
    simp only []
    rw [if_neg (by decide : ¬ agentGraphGlobals.contains "HumanMessage" = true)]
  refine ⟨h1, ?_⟩
  have h2 : call_model (fun _ => Except.error e) [mkHuman p] = Except.error nameErrorHumanMessage := by
    unfold call_model
    simp only []
    rw [if_neg (by decide : ¬ agentGraphGlobals.contains "HumanMessage" = true)]
  unfold create_article_run
  simp [runLoop, h2]

/-- Claim C2 counterexample: in the state c2State a Tool Step has just answered a
batch of two calls whose last answered call is finish, so the claim as
stated demands the run transitions to END; the code instead reads the
second to last message, a ToolMessage without a tool_calls attribute, and
raises, so the decision is neither taken from the answered call nor END. -/
theorem C2_batch_counterexample :
    after_tool_call c2State = Except.error toolCallsAttrError ∧
    after_tool_call c2State ≠ Except.ok "end" := by
  refine ⟨by rfl, ?_⟩
  intro h
  rw [show after_tool_call c2State = Except.error toolCallsAttrError from rfl] at h
  exact Except.noConfusion h

/-- Claim C2 amended: when the model message that was just answered requested
exactly one tool call, the post Tool Step decision inspects that call:
finish routes to END, anything else routes back to the Model Step. -/
theorem C2_single_call_decision (pre : List Msg) (ai tm : Msg) (tc : ToolCall)
    (hrole : ai.role = Role.ai) (hcalls : ai.tool_calls = [tc]) :
    after_tool_call (pre ++ [ai, tm]) =
      Except.ok (if tc.name = "finish" then "end" else "continue") := by
  rw [after_tool_call_eq pre ai tm hrole, hcalls]
  by_cases hname : tc.name = "finish" <;> simp [hname]

/-- Witness for C2 amended at a concrete single finish call. -/
theorem C2_single_call_decision_witness :
    after_tool_call
        ([mkHuman "s"] ++ [mkAI "" [⟨"finish", [("final_summary", "X")], "c1"⟩], mkTool "X" "c1"]) =
      Except.ok "end" := by
  have h := C2_single_call_decision [mkHuman "s"]
    (mkAI "" [⟨"finish", [("final_summary", "X")], "c1"⟩]) (mkTool "X" "c1")
    ⟨"finish", [("final_summary", "X")], "c1"⟩ rfl rfl
  simpa using h

/-- Claim C4: the claim says a configured step limit stops a run whose model
always requests a non finish tool after exactly N cycles with a failed
outcome whose reason is step limit exceeded.  The source configures no such
limit: for every recursion budget the loop is still running when the
budget is exhausted, and the run ends as failed with the GraphRecursionError
text of the langgraph runtime, never with a step limit exceeded reason. -/
theorem C4_no_step_limit (n : Nat) (p : String) :
    create_article_run cfgAlwaysTool n p =
      ⟨"failed", none, some graphRecursionError, []⟩ := by
  unfold create_article_run
  obtain ⟨m, t, h⟩ := cfgAlwaysTool_never_ends n [mkHuman p] []
  rw [h]

/-- Claim C10: after a Tool Step that answered a model message with two or more
tool calls, the second to last message is itself a tool result message, so
the transition check no longer inspects the model message: it raises an
AttributeError on the tool message, and in particular a finish call that is
not the first entry of the batch does not route the run to END. -/
theorem C10_multi_call_check_breaks (pre : List Msg) (ai : Msg) (tms : List Msg)
    (hlen : 2 ≤ tms.length) (htool : ∀ m ∈ tms, m.role = Role.tool) :
    after_tool_call (pre ++ ai :: tms) = Except.error toolCallsAttrError ∧
    after_tool_call (pre ++ ai :: tms) ≠ Except.ok "end" := by
  obtain ⟨l, x, y, hdecomp⟩ : ∃ l x y, tms = l ++ [x, y] := by
    rcases tms.eq_nil_or_concat with hnil | ⟨l1, y, h1⟩
    · simp [hnil] at hlen
    · rcases l1.eq_nil_or_concat with hnil1 | ⟨l2, x, h2⟩
      · rw [h1, hnil1] at hlen
        simp at hlen
      · exact ⟨l2, x, y, by simp [h1, h2]⟩
  have hx : x.role = Role.tool := htool x (by simp [hdecomp])
  have hrw : pre ++ ai :: tms = (pre ++ ai :: l) ++ [x, y] := by simp [hdecomp]
  rw [hrw, after_tool_call_tool_penultimate (pre ++ ai :: l) x y hx]
  exact ⟨rfl, fun h => Except.noConfusion h⟩

/-- Claim C3 counterexample: in cfgFinishInBatch the model invokes finish with
final_summary X, but in a batch together with search_and_summarize.  The
run raises an AttributeError in the post tool transition check, the caller
catches it, and the response is failed with no content, so the extracted
final summary is not X even though the finish invocation with X was
collected among the tool outputs. -/
theorem C3_finish_in_batch_counterexample :
    runLoop cfgFinishInBatch 5 [mkHuman "seed"] [] =
      RunResult.raised toolCallsAttrError
        [("search_and_summarize", "summary text"), ("finish", "X")] ∧
    create_article_run cfgFinishInBatch 5 "seed" =
      ⟨"failed", none, some toolCallsAttrError, []⟩ ∧
    (create_article_run cfgFinishInBatch 5 "seed").content ≠ some "X" := by
  refine ⟨by rfl, by rfl, ?_⟩
  intro h
  rw [show (create_article_run cfgFinishInBatch 5 "seed").content = none from rfl] at h
  exact Option.noConfusion h

/-- Claim C3 amended: when finish is invoked with a non empty final_summary X as
the only tool call of its model message, and no earlier finish output was
collected, the run ends at that Tool Step (no further Model Step runs) and
the extracted final summary equals X regardless of the earlier messages and
tool outputs. -/
theorem C3_singleton_finish_summary (cfg : RunCfg) (n : Nat) (msgs : List Msg)
    (touts : List (String × String)) (c cid X : String)
    (hmodel : cfg.modelInvoke msgs =
      Except.ok ⟨c, [⟨"finish", [("final_summary", X)], cid⟩]⟩)
    (hfirst : outputsOf touts "finish" = [])
    (hX : X ≠ "") :
    runLoop cfg (n + 1) msgs touts =
      RunResult.ended
        (msgs ++ [mkAI c [⟨"finish", [("final_summary", X)], cid⟩], mkTool X cid])
        (touts ++ [("finish", X)]) ∧
    buildResponse
        (some (msgs ++ [mkAI c [⟨"finish", [("final_summary", X)], cid⟩], mkTool X cid]))
        (touts ++ [("finish", X)]) =
      ⟨"completed", some X, none, extractFilePaths (touts ++ [("finish", X)])⟩ := by
  have hloop := runLoop_succ_single_call cfg n msgs touts c
    ⟨"finish", [("final_summary", X)], cid⟩ X hmodel rfl rfl
  rw [if_pos rfl] at hloop
  refine ⟨hloop, ?_⟩
  have hout : outputsOf (touts ++ [("finish", X)]) "finish" = [X] := by
    rw [outputsOf_append, hfirst]
    rfl
  have hsum : computeFinalSummary
      (some (msgs ++ [mkAI c [⟨"finish", [("final_summary", X)], cid⟩], mkTool X cid]))
      (touts ++ [("finish", X)]) = X := by
    unfold computeFinalSummary
    rw [hout]
    rfl
  simp [buildResponse, buildResponseCore, hsum, hX]

/-- Witness for C3 amended at the concrete run that only calls finish. -/
theorem C3_singleton_finish_summary_witness :
    runLoop cfgFinishOnly 1 [mkHuman "seed"] [] =
      RunResult.ended
        [mkHuman "seed", mkAI "" [⟨"finish", [("final_summary", "Done")], "call_1"⟩],
         mkTool "Done" "call_1"]
        [("finish", "Done")] ∧
    buildResponse
        (some [mkHuman "seed", mkAI "" [⟨"finish", [("final_summary", "Done")], "call_1"⟩],
               mkTool "Done" "call_1"])
        [("finish", "Done")] =
      ⟨"completed", some "Done", none, []⟩ := by
  have h := C3_singleton_finish_summary cfgFinishOnly 0 [mkHuman "seed"] [] "" "call_1" "Done"
    rfl rfl (by decide)
  simpa using h

/-- Claim C5 counterexample: on a save tool output in which the marker phrase
occurs twice, the extractor records the trimmed segment between the first
and second occurrence, not the trimmed remainder after the marker that the
claim describes. -/
theorem C5_double_marker_counterexample :
    extractFilePaths [("save_article", c5DoubleMarkerOutput)] = [("a", "a")] ∧
    pyStrip (specRemainderAfterMarker c5DoubleMarkerOutput) = "a successfully saved to b" ∧
    ("a" : String) ≠ "a successfully saved to b" := by
  exact ⟨by rfl, by rfl, by decide⟩

/-- Claim C5 amended: for a save tool output in which the marker phrase occurs
exactly once, the extractor records one artifact entry whose value is the
remainder after the marker trimmed of whitespace, keyed by the last path
segment; the round trip of the claim is the witness below. -/
theorem C5_single_marker_extraction (s pre post : String)
    (h : pySplit s savedMarker = [pre, post]) :
    extractFilePaths [("save_article", s)] = [(pathName (pyStrip post), pyStrip post)] := by
  have hout1 : outputsOf [("save_article", s)] "save_article" = [s] := by rfl
  have hout2 : outputsOf [("save_article", s)] "save_image_with_compression" = [] := by rfl
  unfold extractFilePaths
  rw [hout1, hout2]
  unfold addPathsFrom
  simp [pyContains, h, extractPathOf, dictInsert]

/-- Witness for C5 amended: the round trip of a save output onto the
artifact entry for x.md. -/
theorem C5_single_marker_extraction_witness :
    extractFilePaths [("save_article", "Article successfully saved to output/md/x.md")] =
      [("x.md", "output/md/x.md")] := by
  rw [C5_single_marker_extraction _ "Article " " output/md/x.md" (by rfl)]
  rfl

/-- Claim C6: when the first model response carries an empty tool call list and
non empty content, the run reaches END after exactly one Model Step (the
final state is the seed plus that single response) and the completed
outcome carries that content as the final summary. -/
theorem C6_plain_answer_ends (cfg : RunCfg) (fuel : Nat) (p : String) (resp : AIResponse)
    (hmodel : cfg.modelInvoke [mkHuman p] = Except.ok resp)
    (hempty : resp.tool_calls = [])
    (hcontent : resp.content ≠ "") :
    runLoop cfg (fuel + 1) [mkHuman p] [] =
      RunResult.ended [mkHuman p, mkAI resp.content resp.tool_calls] [] ∧
    create_article_run cfg (fuel + 1) p = ⟨"completed", some resp.content, none, []⟩ := by
  have h1 : call_model cfg.modelInvoke [mkHuman p] =
      Except.ok ([mkHuman p] ++ [mkAI resp.content resp.tool_calls]) := by
    unfold call_model
    rw [hmodel]
  have h2 : should_continue ([mkHuman p] ++ [mkAI resp.content resp.tool_calls]) =
      Except.ok "end" := by
    rw [should_continue_append, hempty]
    rfl
  have h2n : should_continue [mkHuman p, mkAI resp.content resp.tool_calls] =
      Except.ok "end" := by
    simpa using h2
  have hloop : runLoop cfg (fuel + 1) [mkHuman p] [] =
      RunResult.ended [mkHuman p, mkAI resp.content resp.tool_calls] [] := by
    simp [runLoop, h1, h2n]
  refine ⟨hloop, ?_⟩
  have hsum : computeFinalSummary (some [mkHuman p, mkAI resp.content resp.tool_calls]) [] =
      resp.content := by
    unfold computeFinalSummary
    simp [outputsOf, Msg.toolCallsOrNone, mkAI, hempty, hcontent]
  unfold create_article_run
  rw [hloop]
  simp [buildResponse, buildResponseCore, hsum, hcontent, outputsOf]
  rfl

/-- Witness for C6 at the concrete configuration whose model answers with a
plain message. -/
theorem C6_plain_answer_ends_witness :
    runLoop cfgPlainAnswer 1 [mkHuman "seed"] [] =
      RunResult.ended [mkHuman "seed", mkAI "Final summary." []] [] ∧
    create_article_run cfgPlainAnswer 1 "seed" =
      ⟨"completed", some "Final summary.", none, []⟩ := by
  have h := C6_plain_answer_ends cfgPlainAnswer 0 "seed" ⟨"Final summary.", []⟩
    rfl rfl (by decide)
  simpa using h

/-- Claim C7: when the run produced a final state but no finish output was
collected and the last message rule yields no summary, the extraction
raises an AgentExecutionError carrying the final state and the tool
outputs as diagnostic details, the caller catches it, and the endpoint
still returns a normal response with status failed; being a total
function of the run data, the embedded endpoint body can raise nothing
past the run boundary. -/
theorem C7_extraction_failure_contained (msgs : List Msg) (touts : List (String × String))
    (hfin : outputsOf touts "finish" = [])
    (hsum : computeFinalSummary (some msgs) touts = "") :
    buildResponseCore (some msgs) touts =
      Except.error ⟨noSummaryError, some msgs, touts⟩ ∧
    buildResponse (some msgs) touts = ⟨"failed", none, some noSummaryError, []⟩ := by
  have hcore : buildResponseCore (some msgs) touts =
      Except.error ⟨noSummaryError, some msgs, touts⟩ := by
    unfold buildResponseCore
    simp [hsum]
  refine ⟨hcore, ?_⟩
  unfold buildResponse
  rw [hcore]

/-- Witness for C7 at a final state whose last message has empty content. -/
theorem C7_extraction_failure_contained_witness :
    outputsOf [] "finish" = [] ∧
    computeFinalSummary (some [mkAI "" []]) [] = "" ∧
    buildResponse (some [mkAI "" []]) [] = ⟨"failed", none, some noSummaryError, []⟩ := by
  exact ⟨rfl, rfl, (C7_extraction_failure_contained [mkAI "" []] [] rfl rfl).2⟩

/-- Claim C8: a Tool Step batch containing an unregistered tool name yields, for
that call, a failure tool message built from the invalid tool template,
which names the offending tool and lists the registered tool names (see
invalidToolMsg); the run does not crash and the remaining call of the batch
is still executed and collected. -/
theorem C8_unregistered_tool_contained (env : ToolEnv) (pre : List Msg) (c : String)
    (bad good : ToolCall) (out : String)
    (hbad : registeredToolNames.contains bad.name = false)
    (hgood : registeredToolNames.contains good.name = true)
    (hrun : runRegisteredTool env good.name good.args = Except.ok out) :
    tool_node_invoke env (pre ++ [mkAI c [bad, good]]) =
      Except.ok
        (pre ++ [mkAI c [bad, good], mkTool (invalidToolMsg bad.name) bad.id,
                 mkTool out good.id],
         [(good.name, out)]) := by
  have hbad2 : ¬ bad.name ∈ registeredToolNames := by simpa using hbad
  have hgood2 : good.name ∈ registeredToolNames := by simpa using hgood
  rw [tool_node_invoke_append]
  simp [toolNodeRunOne, hbad2, hgood2, hrun]

/-- Witness for C8 at a concrete batch of one bogus and one registered
call. -/
theorem C8_unregistered_tool_contained_witness :
    tool_node_invoke c8Env
        ([mkHuman "s"] ++ [mkAI "" [⟨"bogus", [], "c1"⟩, ⟨"search_and_summarize", [], "c2"⟩]]) =
      Except.ok
        ([mkHuman "s"] ++
          [mkAI "" [⟨"bogus", [], "c1"⟩, ⟨"search_and_summarize", [], "c2"⟩],
           mkTool (invalidToolMsg "bogus") "c1", mkTool "out" "c2"],
         [("search_and_summarize", "out")]) := by
  exact C8_unregistered_tool_contained c8Env [mkHuman "s"] "" ⟨"bogus", [], "c1"⟩
    ⟨"search_and_summarize", [], "c2"⟩ "out" rfl rfl rfl

/-- Claim C9 counterexample: a translation fan out over the single language fr
whose translation branch fails still records that branch in the artifact
map, because the branch error string is itself saved as the article; the
claim that the map contains exactly the successful branches demands an
empty map here. -/
theorem C9_translation_failed_branch_in_map :
    translate_text (c9FailLlm "fr") = "Error during translation: boom" ∧
    translate_endpoint_paths "a" ["fr"] c9FailLlm c9OkFs =
      [("a_fr.md", "output/trans_exist/a_fr.md")] ∧
    translate_endpoint_paths "a" ["fr"] c9FailLlm c9OkFs ≠ [] := by
  refine ⟨rfl, rfl, ?_⟩
  intro h
  rw [show translate_endpoint_paths "a" ["fr"] c9FailLlm c9OkFs =
      [("a_fr.md", "output/trans_exist/a_fr.md")] from rfl] at h
  exact List.noConfusion h

/-- Claim C9 amended: no branch failure is raised or cancels the siblings (the
branch bodies are total, a failed translation yields an error string), and
the image endpoint map contains exactly the successful branches; the
translation endpoint map, however, is completely independent of the
translation outcomes, because a failed branch has its error text saved as
the article and its path collected like a success. -/
theorem C9_partial_success_characterised (results : List ImgResult)
    (stem : String) (langs : List String)
    (llms llms2 : String → Except String String) (fs : String → Except String Unit)
    (e : String) :
    images_collect results = images_collect (results.filter ImgResult.isFilePath) ∧
    translate_endpoint_paths stem langs llms fs =
      translate_endpoint_paths stem langs llms2 fs ∧
    translate_text (Except.error e) = "Error during translation: " ++ e := by
  refine ⟨?_, ?_, rfl⟩
  · unfold images_collect
    exact images_foldl_filter results []
  · rfl

/-- Witness for C10 at the concrete two call batch state c2State. -/
theorem C10_multi_call_check_breaks_witness :
    after_tool_call c2State = Except.error toolCallsAttrError ∧
    after_tool_call c2State ≠ Except.ok "end" := by
  have h := C10_multi_call_check_breaks
    [mkHuman "seed"]
    (mkAI "" [⟨"search_and_summarize", [], "c1"⟩, ⟨"finish", [("final_summary", "X")], "c2"⟩])
    [mkTool "summary text" "c1", mkTool "X" "c2"]
    (by decide)
    (by intro m hm; fin_cases hm <;> rfl)
  simpa [c2State] using h
